import Mathlib

/-!
Shallow embedding of the kitebot Telegram adapter
(source file src/telegram-client.ts).

The adapter bridges Telegram to a file-based queue:
inbound text messages are written as JSON files into an incoming
directory and tracked in an in-memory pending map; an outgoing
directory is polled for response files which are routed back to the
originating chat; a typing indicator is refreshed periodically; a
reset command bypasses the queue and writes a sentinel flag file.

Machinery modelled here:
- the pending-message map (a JS Map from internal message id to
  chat id, Telegram message id and enqueue timestamp);
- the text-message handler (reset check, typing indicator, queue
  file write, pending registration, 10-minute eviction sweep);
- the outgoing-queue poll cycle (per-file parse, match, send,
  delete, with the per-file and whole-cycle try/catch boundaries);
- the typing-refresh tick (failures ignored by an empty catch);
- the startup token validation (exit on missing or placeholder
  token).

Fallible effects (JSON.parse, fs.unlinkSync, fs.readdirSync,
sendChatAction) are modelled by explicit outcome data so that the
catch-block control flow of the source is reproduced exactly.
-/

namespace Kitebot

/-- The value stored in the pendingMessages Map: originating chat id,
Telegram message id of the inbound message (used as the reply target),
and the enqueue timestamp in milliseconds. -/
structure PendingMessage where
  chatId : Int
  messageId : Nat
  timestamp : Nat
deriving DecidableEq, Repr

/-- The QueueData record written to the incoming queue directory. -/
structure QueueData where
  channel : String
  sender : String
  senderId : String
  message : String
  timestamp : Nat
  messageId : String
deriving DecidableEq, Repr

/-- The ResponseData record parsed from an outgoing queue file.
The messageId field is an Option: none models a JSON object in which
the field is absent (JSON.parse succeeds, the destructured binding is
undefined). -/
structure ResponseData where
  channel : String
  sender : String
  message : String
  originalMessage : String
  timestamp : Nat
  messageId : Option String
deriving DecidableEq, Repr

/-- Outcome of JSON.parse on the content of an outgoing file:
either a parsed ResponseData or a thrown SyntaxError. -/
inductive FileContent where
  | parsed (r : ResponseData)
  | invalid
deriving DecidableEq, Repr

/-- A file present in the outgoing queue directory. The unlinkFails
flag is the outcome oracle for fs.unlinkSync on this file: true means
the deletion attempt throws. -/
structure OutFile where
  name : String
  content : FileContent
  unlinkFails : Bool
deriving DecidableEq, Repr

/-- A platform send performed via bot.telegram.sendMessage: target
chat, text, and the reply_parameters message id (threaded reply). -/
structure SentMessage where
  chatId : Int
  text : String
  replyToMessageId : Nat
deriving DecidableEq, Repr

/-- One line written by the log helper: level and message. -/
structure LogEntry where
  level : String
  text : String
deriving DecidableEq, Repr

/-- The pendingMessages JS Map, modelled as an insertion-ordered
association list from internal message id to PendingMessage. -/
abbrev PendingMap := List (String × PendingMessage)

/-- Map.get: first (and, for maps built by mapSet, only) binding. -/
def mapGet (m : PendingMap) (k : String) : Option PendingMessage :=
  (m.find? (fun e => e.1 == k)).map (fun e => e.2)

/-- Map.set: overwrite in place if the key exists, else append. -/
def mapSet (m : PendingMap) (k : String) (v : PendingMessage) : PendingMap :=
  if m.any (fun e => e.1 == k) then
    m.map (fun e => if e.1 == k then (k, v) else e)
  else
    m ++ [(k, v)]

/-- Map.delete: remove the binding for the key. -/
def mapDelete (m : PendingMap) (k : String) : PendingMap :=
  m.filter (fun e => !(e.1 == k))

/-- pendingMessages.get(internalMessageId) where the id came from a
destructured JSON field: a missing field (undefined) matches no key. -/
def pendingFor (m : PendingMap) (mid : Option String) : Option PendingMessage :=
  match mid with
  | none => none
  | some id => mapGet m id

/-- String interpolation of a possibly-undefined JS value. -/
def optIdStr (mid : Option String) : String :=
  match mid with
  | none => "undefined"
  | some id => id

/-! ### The text-message handler -/

/-- The fields of the Telegraf ctx consulted by the handler: chat id,
Telegram message id, sender identity fields, and the message text. -/
structure Ctx where
  chatId : Int
  telegramMessageId : Nat
  firstName : Option String
  username : Option String
  text : String
deriving DecidableEq, Repr

/-- JS String.prototype.trim: strip leading and trailing whitespace.
Implemented over the character list so that it evaluates by kernel
reduction. -/
def jsTrim (s : String) : String :=
  ⟨((s.data.dropWhile Char.isWhitespace).reverse.dropWhile Char.isWhitespace).reverse⟩

/-- Lower-casing of one ASCII character, as the i regex flag needs. -/
def lowerChar (c : Char) : Char :=
  if 65 ≤ c.toNat && c.toNat ≤ 90 then Char.ofNat (c.toNat + 32) else c

/-- Lower-casing of a string, character by character. -/
def jsToLower (s : String) : String :=
  ⟨s.data.map lowerChar⟩

/-- String.prototype.startsWith over character lists. -/
def strStartsWith (s p : String) : Bool :=
  s.data.take p.data.length == p.data

/-- String.prototype.endsWith over character lists. -/
def strEndsWith (s p : String) : Bool :=
  s.data.drop (s.data.length - p.data.length) == p.data

/-- JS a || b on an optional string: undefined and the empty string
are falsy. -/
def jsOrString (a : Option String) (b : String) : String :=
  match a with
  | none => b
  | some s => if s = "" then b else s

/-- ctx.from.first_name || ctx.from.username || the literal Unknown. -/
def senderName (c : Ctx) : String :=
  jsOrString c.firstName (jsOrString c.username "Unknown")

/-- text.trim().match of the pattern hat-bracket-bang-slash-bracket-reset-dollar
with the i flag: after trimming, the text is exactly one of the two
six-character commands, compared case-insensitively. -/
def isResetCommand (text : String) : Bool :=
  jsToLower (jsTrim text) == "!reset" || jsToLower (jsTrim text) == "/reset"

/-- The internal message id: Date.now() interpolated in decimal,
an underscore, then the Math.random suffix. -/
def mkMessageId (now : Nat) (rand : String) : String :=
  Nat.repr now ++ "_" ++ rand

/-- The cleanup sweep at the end of the handler: delete every entry
whose timestamp is strictly below now minus ten minutes. JS computes
tenMinutesAgo with ordinary subtraction; for now below 600000 it is
negative and nothing is evicted, which Nat truncated subtraction
reproduces since no timestamp is below zero. -/
def evictOld (now : Nat) (m : PendingMap) : PendingMap :=
  m.filter (fun e => !(decide (e.2.timestamp < now - 600000)))

/-- The reply text of the reset branch. -/
def resetReplyText : String :=
  "Conversation reset! Next message will start a fresh conversation."

/-- Everything observable the handler did: the pending map afterwards,
the queue files written (name and content), whether the reset flag
file was written, the direct replies sent, whether the typing
indicator was sent, and the log lines. -/
structure HandleResult where
  pending : PendingMap
  queueWrites : List (String × QueueData)
  resetFlagWritten : Bool
  replies : List String
  typingSent : Bool
  logs : List LogEntry
deriving DecidableEq, Repr

/-- The bot.on text handler. Arguments beyond the state and ctx are
the environment oracles: now is Date.now(), rand is the Math.random
suffix, typingFails tells whether the awaited ctx.sendChatAction
throws (in which case the enclosing try/catch logs the error and the
queue write never happens). -/
def handleTextMessage (pending : PendingMap) (c : Ctx) (now : Nat) (rand : String)
    (typingFails : Bool) : HandleResult :=
  let baseLog : LogEntry := ⟨"INFO", "Message from " ++ senderName c⟩
  if isResetCommand c.text then
    ⟨pending, [], true, [resetReplyText], false,
      [baseLog, ⟨"INFO", "Reset command received"⟩]⟩
  else if typingFails then
    ⟨pending, [], false, [], false,
      [baseLog, ⟨"ERROR", "Message handling error"⟩]⟩
  else
    let id := mkMessageId now rand
    let qd : QueueData :=
      ⟨"telegram", senderName c, toString c.chatId, c.text, now, id⟩
    ⟨evictOld now (mapSet pending id ⟨c.chatId, c.telegramMessageId, now⟩),
      [("telegram_" ++ id ++ ".json", qd)],
      false, [], true,
      [baseLog, ⟨"INFO", "Queued message " ++ id⟩]⟩

/-! ### The outgoing-queue poll cycle -/

/-- The filename filter of the poll loop: starts with telegram_ and
ends with .json. -/
def isTelegramJson (name : String) : Bool :=
  strStartsWith name "telegram_" && strEndsWith name ".json"

/-- Result of handling one file inside the per-file try/catch: the
pending map afterwards, whether the file is still present in the
directory, the platform sends, and the log lines. -/
structure FileStep where
  pending : PendingMap
  keep : Bool
  sent : List SentMessage
  logs : List LogEntry
deriving DecidableEq, Repr

/-- The log line of the per-file catch block. -/
def fileErrorLog (name : String) : LogEntry :=
  ⟨"ERROR", "Error processing response file " ++ name⟩

/-- The warning of the no-pending branch. -/
def noPendingLog (mid : Option String) : LogEntry :=
  ⟨"WARN", "No pending message for " ++ optIdStr mid ++ ", cleaning up"⟩

/-- One iteration of the poll loop body. A file not matching the
telegram filename filter is skipped untouched. Otherwise: parse; a
parse failure is caught and logged, the file stays. On success, look
up the messageId among the pending messages. If found: send the text
as a threaded reply, log, delete the pending entry, unlink (an unlink
failure is caught and logged, the file stays). If not found: warn and
unlink (same catch). -/
def processFile (pending : PendingMap) (f : OutFile) : FileStep :=
  if isTelegramJson f.name then
    match f.content with
    | .invalid => ⟨pending, true, [], [fileErrorLog f.name]⟩
    | .parsed r =>
      match r.messageId with
      | none =>
        if f.unlinkFails then
          ⟨pending, true, [], [noPendingLog none, fileErrorLog f.name]⟩
        else
          ⟨pending, false, [], [noPendingLog none]⟩
      | some id =>
        match mapGet pending id with
        | some p =>
          let sm : SentMessage := ⟨p.chatId, r.message, p.messageId⟩
          let okLog : LogEntry := ⟨"INFO", "Sent response to " ++ r.sender⟩
          if f.unlinkFails then
            ⟨mapDelete pending id, true, [sm], [okLog, fileErrorLog f.name]⟩
          else
            ⟨mapDelete pending id, false, [sm], [okLog]⟩
        | none =>
          if f.unlinkFails then
            ⟨pending, true, [], [noPendingLog (some id), fileErrorLog f.name]⟩
          else
            ⟨pending, false, [], [noPendingLog (some id)]⟩
  else
    ⟨pending, true, [], []⟩

/-- State of one whole poll cycle: pending map afterwards, the files
remaining in the outgoing directory, all sends and all log lines. -/
structure CycleResult where
  pending : PendingMap
  remaining : List OutFile
  sent : List SentMessage
  logs : List LogEntry
deriving DecidableEq, Repr

/-- The for loop of checkOutgoingQueue over the directory listing. -/
def processFiles (pending : PendingMap) (fs : List OutFile) : CycleResult :=
  match fs with
  | [] => ⟨pending, [], [], []⟩
  | f :: rest =>
    let s := processFile pending f
    let r := processFiles s.pending rest
    ⟨r.pending, (if s.keep then [f] else []) ++ r.remaining,
      s.sent ++ r.sent, s.logs ++ r.logs⟩

/-- The log line of the outer catch of checkOutgoingQueue. -/
def outgoingErrorLog : LogEntry :=
  ⟨"ERROR", "Outgoing queue error"⟩

/-- checkOutgoingQueue: list the outgoing directory (readdirFails is
the outcome oracle for fs.readdirSync; on failure the outer catch logs
and the cycle does nothing else) and run the loop over the listing. -/
def checkOutgoingQueue (pending : PendingMap) (dir : List OutFile)
    (readdirFails : Bool) : CycleResult :=
  if readdirFails then
    ⟨pending, dir, [], [outgoingErrorLog]⟩
  else
    processFiles pending dir

/-! ### The typing-refresh tick -/

/-- Outcome of one fire-and-forget platform call. -/
inductive SendOutcome where
  | ok
  | failed
deriving DecidableEq, Repr

/-- One tick of the 4-second typing-refresh interval: for every
pending entry, sendChatAction is attempted; its promise carries a
catch handler with an empty body, so a failure produces no log and
the iteration continues. Returns the chat ids for which the action
was attempted and the log lines written. -/
def typingRefreshTick (pending : PendingMap) (outcome : Int → SendOutcome) :
    List Int × List LogEntry :=
  match pending with
  | [] => ([], [])
  | e :: rest =>
    let tail := typingRefreshTick rest outcome
    match outcome e.2.chatId with
    | .ok => (e.2.chatId :: tail.1, tail.2)
    | .failed => (e.2.chatId :: tail.1, tail.2)

/-! ### Startup token validation -/

/-- What the process does at startup. -/
inductive StartupOutcome where
  | exited (code : Nat) (err : String)
  | launched
deriving DecidableEq, Repr

/-- The guard condition: process.env.TELEGRAM_BOT_TOKEN is undefined
or falsy (the empty string) or the literal placeholder. -/
def tokenLooksUnset (tok : Option String) : Bool :=
  match tok with
  | none => true
  | some s => s == "" || s == "your_token_here"

/-- The startup error line. -/
def startupErrorText : String :=
  "ERROR: TELEGRAM_BOT_TOKEN is not set in .env file"

/-- The token check at module load: log the error and process.exit(1)
when the token looks unset, otherwise proceed to launch the bot. -/
def startupCheck (tok : Option String) : StartupOutcome :=
  if tokenLooksUnset tok then .exited 1 startupErrorText
  else .launched

/-! ### Helper lemmas: strings, decimal digits, map operations -/

lemma data_append (s t : String) : (s ++ t).data = s.data ++ t.data := by
  cases s; cases t; rfl

lemma digitChar_ne_underscore (n : Nat) : Nat.digitChar n ≠ '_' := by
  rcases Nat.lt_or_ge n 16 with h | h
  · interval_cases n <;> decide
  · unfold Nat.digitChar
    repeat rw [if_neg (by omega)]
    decide

lemma toDigitsCore_succ (b f n : Nat) (acc : List Char) :
    Nat.toDigitsCore b (f + 1) n acc =
      if n / b = 0 then Nat.digitChar (n % b) :: acc
      else Nat.toDigitsCore b f (n / b) (Nat.digitChar (n % b) :: acc) := rfl

lemma toDigitsCore_no_underscore (b f : Nat) : ∀ (n : Nat) (acc : List Char),
    '_' ∉ acc → '_' ∉ Nat.toDigitsCore b f n acc := by
  induction f with
  | zero => intro n acc h; simpa [Nat.toDigitsCore]
  | succ f ih =>
    intro n acc h
    have hcons : '_' ∉ (Nat.digitChar (n % b) :: acc) := by
      intro hmem
      rcases List.mem_cons.mp hmem with h1 | h1
      · exact digitChar_ne_underscore (n % b) h1.symm
      · exact h h1
    rw [toDigitsCore_succ b f n acc]
    by_cases hdiv : n / b = 0
    · rw [if_pos hdiv]; exact hcons
    · rw [if_neg hdiv]; exact ih (n / b) (Nat.digitChar (n % b) :: acc) hcons

lemma repr_no_underscore (n : Nat) : '_' ∉ (Nat.repr n).data := by
  have := toDigitsCore_no_underscore 10 (n + 1) n [] (by simp)
  simpa [Nat.repr, Nat.toDigits, List.asString] using this

lemma toDigitsCore_append (b : Nat) : ∀ (f n : Nat) (acc : List Char),
    Nat.toDigitsCore b f n acc = Nat.toDigitsCore b f n [] ++ acc := by
  intro f
  induction f with
  | zero => intro n acc; simp [Nat.toDigitsCore]
  | succ f ih =>
    intro n acc
    rw [toDigitsCore_succ b f n acc, toDigitsCore_succ b f n []]
    by_cases hdiv : n / b = 0
    · rw [if_pos hdiv, if_pos hdiv]; rfl
    · rw [if_neg hdiv, if_neg hdiv,
        ih (n / b) (Nat.digitChar (n % b) :: acc), ih (n / b) [Nat.digitChar (n % b)]]
      simp

lemma toDigitsCore_fuel (b : Nat) (hb : 2 ≤ b) : ∀ (n f1 f2 : Nat), n < f1 → n < f2 →
    Nat.toDigitsCore b f1 n [] = Nat.toDigitsCore b f2 n [] := by
  intro n
  induction n using Nat.strong_induction_on with
  | _ n ih =>
    intro f1 f2 h1 h2
    cases f1 with
    | zero => omega
    | succ g1 =>
      cases f2 with
      | zero => omega
      | succ g2 =>
        rw [toDigitsCore_succ b g1 n [], toDigitsCore_succ b g2 n []]
        by_cases hdiv : n / b = 0
        · rw [if_pos hdiv, if_pos hdiv]
        · rw [if_neg hdiv, if_neg hdiv]
          have hnpos : 0 < n := by
            rcases Nat.eq_zero_or_pos n with h0 | h0
            · subst h0; simp at hdiv
            · exact h0
          have hlt : n / b < n := Nat.div_lt_self hnpos (by omega)
          rw [toDigitsCore_append b g1 (n / b), toDigitsCore_append b g2 (n / b),
            ih (n / b) hlt g1 g2 (by omega) (by omega)]

lemma toDigits_base (n : Nat) (h : n / 10 = 0) :
    Nat.toDigits 10 n = [Nat.digitChar n] := by
  have hn : n < 10 := by omega
  show Nat.toDigitsCore 10 (n + 1) n [] = [Nat.digitChar n]
  rw [toDigitsCore_succ 10 n n [], if_pos h, Nat.mod_eq_of_lt hn]

lemma toDigits_step (n : Nat) (h : n / 10 ≠ 0) :
    Nat.toDigits 10 n = Nat.toDigits 10 (n / 10) ++ [Nat.digitChar (n % 10)] := by
  have hnpos : 0 < n := by omega
  show Nat.toDigitsCore 10 (n + 1) n [] =
    Nat.toDigitsCore 10 (n / 10 + 1) (n / 10) [] ++ [Nat.digitChar (n % 10)]
  rw [toDigitsCore_succ 10 n n [], if_neg h]
  rw [toDigitsCore_append 10 n (n / 10)]
  rw [toDigitsCore_fuel 10 (by norm_num) (n / 10) n (n / 10 + 1)
    (Nat.div_lt_self hnpos (by norm_num)) (by omega)]

/-- Numeric value of a decimal digit character. -/
def digitVal (c : Char) : Nat := c.toNat - 48

/-- Value of a decimal digit string, most significant digit first. -/
def digitsVal (l : List Char) : Nat := l.foldl (fun a c => 10 * a + digitVal c) 0

lemma digitVal_digitChar (m : Nat) (hm : m < 10) :
    digitVal (Nat.digitChar m) = m := by
  interval_cases m <;> rfl

lemma digitsVal_toDigits (n : Nat) : digitsVal (Nat.toDigits 10 n) = n := by
  induction n using Nat.strong_induction_on with
  | _ n ih =>
    by_cases h : n / 10 = 0
    · have hn : n < 10 := by omega
      rw [toDigits_base n h]
      simp [digitsVal, digitVal_digitChar n hn]
    · have hnpos : 0 < n := by omega
      have hlt : n / 10 < n := Nat.div_lt_self hnpos (by norm_num)
      rw [toDigits_step n h]
      have hih := ih (n / 10) hlt
      simp only [digitsVal, List.foldl_append] at hih ⊢
      rw [hih, List.foldl]
      simp [digitVal_digitChar (n % 10) (Nat.mod_lt n (by norm_num))]
      omega

lemma repr_injective (m n : Nat) (h : Nat.repr m = Nat.repr n) : m = n := by
  have hdata : (Nat.repr m).data = (Nat.repr n).data := by rw [h]
  simp only [Nat.repr, List.asString] at hdata
  have hm := digitsVal_toDigits m
  rw [hdata] at hm
  rw [digitsVal_toDigits n] at hm
  exact hm.symm

lemma append_underscore_inj : ∀ (a1 a2 t1 t2 : List Char),
    '_' ∉ a1 → '_' ∉ a2 →
    a1 ++ '_' :: t1 = a2 ++ '_' :: t2 → a1 = a2 ∧ t1 = t2 := by
  intro a1
  induction a1 with
  | nil =>
    intro a2 t1 t2 _ h2 he
    cases a2 with
    | nil => simpa using he
    | cons b bs =>
      exfalso
      simp only [List.nil_append, List.cons_append, List.cons.injEq] at he
      exact h2 (by simp [← he.1])
  | cons a as ih =>
    intro a2 t1 t2 h1 h2 he
    cases a2 with
    | nil =>
      exfalso
      simp only [List.cons_append, List.nil_append, List.cons.injEq] at he
      exact h1 (by simp [he.1])
    | cons b bs =>
      simp only [List.cons_append, List.cons.injEq] at he
      have hrec := ih bs t1 t2 (fun hm => h1 (List.mem_cons_of_mem a hm))
        (fun hm => h2 (List.mem_cons_of_mem b hm)) he.2
      exact ⟨by rw [he.1, hrec.1], hrec.2⟩

lemma mkMessageId_inj (n1 n2 : Nat) (r1 r2 : String)
    (h : mkMessageId n1 r1 = mkMessageId n2 r2) :
    n1 = n2 ∧ r1 = r2 := by
  have hd : (Nat.repr n1).data ++ '_' :: r1.data = (Nat.repr n2).data ++ '_' :: r2.data := by
    have := congrArg String.data h
    simpa [mkMessageId, data_append] using this
  have hsplit := append_underscore_inj (Nat.repr n1).data (Nat.repr n2).data r1.data r2.data
    (repr_no_underscore n1) (repr_no_underscore n2) hd
  refine ⟨repr_injective n1 n2 ?_, ?_⟩
  · cases hr1 : Nat.repr n1; cases hr2 : Nat.repr n2
    rw [hr1, hr2] at hsplit
    simp_all
  · cases r1; cases r2
    simp_all

lemma mem_mapSet_self (m : PendingMap) (id : String) (v : PendingMessage) :
    (id, v) ∈ mapSet m id v := by
  unfold mapSet
  split
  · rename_i h
    rcases List.any_eq_true.mp h with ⟨e, he, hkey⟩
    refine List.mem_map.mpr ⟨e, he, ?_⟩
    simp [hkey]
  · exact List.mem_append_right _ (by simp)

lemma mapSet_key_val (m : PendingMap) (id : String) (v : PendingMessage) :
    ∀ e ∈ mapSet m id v, e.1 = id → e.2 = v := by
  intro e he hkey
  unfold mapSet at he
  split at he
  · rcases List.mem_map.mp he with ⟨e0, he0, heq⟩
    by_cases h0 : (e0.1 == id) = true
    · rw [if_pos h0] at heq
      rw [← heq]
    · rw [if_neg h0] at heq
      subst heq
      exact absurd (by simp [hkey]) h0
  · rename_i hany
    rcases List.mem_append.mp he with h1 | h1
    · exfalso
      apply hany
      exact List.any_eq_true.mpr ⟨e, h1, by simp [hkey]⟩
    · simp at h1
      simp [h1]

lemma mapGet_eq_some (l : PendingMap) (id : String) (v : PendingMessage)
    (hmem : (id, v) ∈ l) (huniq : ∀ e ∈ l, e.1 = id → e.2 = v) :
    mapGet l id = some v := by
  induction l with
  | nil => simp at hmem
  | cons e rest ih =>
    by_cases hk : (e.1 == id) = true
    · have hv : e.2 = v := huniq e (by simp) (by simpa using hk)
      unfold mapGet
      rw [List.find?_cons_of_pos rest hk]
      simp [hv]
    · unfold mapGet
      rw [List.find?_cons_of_neg rest hk]
      apply ih
      · rcases List.mem_cons.mp hmem with h | h
        · exfalso
          apply hk
          rw [← h]
          simp
        · exact h
      · intro e2 h2 hkey
        exact huniq e2 (List.mem_cons_of_mem _ h2) hkey

lemma mapGet_evict_set (m : PendingMap) (id : String) (v : PendingMessage) (now : Nat)
    (hv : decide (v.timestamp < now - 600000) = false) :
    mapGet (evictOld now (mapSet m id v)) id = some v := by
  apply mapGet_eq_some
  · unfold evictOld
    refine List.mem_filter.mpr ⟨mem_mapSet_self m id v, ?_⟩
    simp only [hv, Bool.not_false]
  · intro e he hkey
    have he2 : e ∈ mapSet m id v := (List.mem_filter.mp he).1
    exact mapSet_key_val m id v e he2 hkey

lemma evictOld_all (now : Nat) (l : PendingMap) :
    (evictOld now l).all (fun e => !(decide (e.2.timestamp < now - 600000))) = true := by
  rw [List.all_eq_true]
  intro e he
  exact (List.mem_filter.mp he).2

lemma jsOrString_ne_empty (a : Option String) (b : String) (hb : b ≠ "") :
    jsOrString a b ≠ "" := by
  cases a with
  | none => simpa [jsOrString]
  | some s =>
    by_cases hs : s = ""
    · simpa [jsOrString, hs]
    · simp [jsOrString, hs]

lemma senderName_ne_empty (c : Ctx) : senderName c ≠ "" := by
  unfold senderName
  apply jsOrString_ne_empty
  apply jsOrString_ne_empty
  decide

/-! ### Helper lemmas: the per-file step of the outgoing poll loop -/

lemma processFile_invalid (pending : PendingMap) (f : OutFile)
    (hname : isTelegramJson f.name = true) (hc : f.content = .invalid) :
    processFile pending f = ⟨pending, true, [], [fileErrorLog f.name]⟩ := by
  obtain ⟨nm, ct, ul⟩ := f
  simp only at hc
  subst hc
  simp [processFile, hname]

lemma processFile_orphan (pending : PendingMap) (f : OutFile) (r : ResponseData)
    (hname : isTelegramJson f.name = true) (hc : f.content = .parsed r)
    (hmiss : pendingFor pending r.messageId = none) (hu : f.unlinkFails = false) :
    processFile pending f = ⟨pending, false, [], [noPendingLog r.messageId]⟩ := by
  obtain ⟨nm, ct, ul⟩ := f
  simp only at hc hu
  subst hc
  subst hu
  cases hid : r.messageId with
  | none => simp [processFile, hname, hid]
  | some id =>
    have hget : mapGet pending id = none := by
      simpa [pendingFor, hid] using hmiss
    simp [processFile, hname, hid, hget]

lemma processFile_orphan_unlinkFail (pending : PendingMap) (f : OutFile) (r : ResponseData)
    (hname : isTelegramJson f.name = true) (hc : f.content = .parsed r)
    (hmiss : pendingFor pending r.messageId = none) (hu : f.unlinkFails = true) :
    processFile pending f =
      ⟨pending, true, [], [noPendingLog r.messageId, fileErrorLog f.name]⟩ := by
  obtain ⟨nm, ct, ul⟩ := f
  simp only at hc hu
  subst hc
  subst hu
  cases hid : r.messageId with
  | none => simp [processFile, hname, hid]
  | some id =>
    have hget : mapGet pending id = none := by
      simpa [pendingFor, hid] using hmiss
    simp [processFile, hname, hid, hget]

lemma processFile_matched (pending : PendingMap) (f : OutFile) (r : ResponseData)
    (id : String) (p : PendingMessage)
    (hname : isTelegramJson f.name = true) (hc : f.content = .parsed r)
    (hid : r.messageId = some id) (hp : mapGet pending id = some p)
    (hu : f.unlinkFails = false) :
    processFile pending f = ⟨mapDelete pending id, false,
      [⟨p.chatId, r.message, p.messageId⟩],
      [⟨"INFO", "Sent response to " ++ r.sender⟩]⟩ := by
  obtain ⟨nm, ct, ul⟩ := f
  simp only at hc hu
  subst hc
  subst hu
  simp [processFile, hname, hid, hp]

lemma processFile_sent_of_unmatched (pending : PendingMap) (f : OutFile) (r : ResponseData)
    (hc : f.content = .parsed r) (hmiss : pendingFor pending r.messageId = none) :
    (processFile pending f).sent = [] := by
  obtain ⟨nm, ct, ul⟩ := f
  simp only at hc
  subst hc
  by_cases hname : isTelegramJson nm = true
  · cases hid : r.messageId with
    | none => cases ul <;> simp [processFile, hname, hid]
    | some id =>
      have hget : mapGet pending id = none := by
        simpa [pendingFor, hid] using hmiss
      cases ul <;> simp [processFile, hname, hid, hget]
  · simp [processFile, hname]

lemma processFiles_cons (pending : PendingMap) (f : OutFile) (rest : List OutFile) :
    processFiles pending (f :: rest) =
      ⟨(processFiles (processFile pending f).pending rest).pending,
        (if (processFile pending f).keep then [f] else []) ++
          (processFiles (processFile pending f).pending rest).remaining,
        (processFile pending f).sent ++
          (processFiles (processFile pending f).pending rest).sent,
        (processFile pending f).logs ++
          (processFiles (processFile pending f).pending rest).logs⟩ := rfl

/-! ### Claim theorems -/

/-- C1: for every inbound platform text message whose text matches the
reset pattern (bang-or-slash reset, case-insensitive, after trim), the
handler writes the ResetFlag sentinel file and replies immediately,
and no QueueMessage file is written to the incoming directory and no
PendingEntry is created: the pending map is returned untouched. This
holds whatever the state of the typing-indicator oracle, since the
reset branch returns before the typing indicator is sent. -/
theorem reset_command_bypasses_queue (pending : PendingMap) (c : Ctx) (now : Nat)
    (rand : String) (tf : Bool) (hreset : isResetCommand c.text = true) :
    (handleTextMessage pending c now rand tf).resetFlagWritten = true ∧
    (handleTextMessage pending c now rand tf).replies = [resetReplyText] ∧
    (handleTextMessage pending c now rand tf).queueWrites = [] ∧
    (handleTextMessage pending c now rand tf).pending = pending := by
  simp [handleTextMessage, hreset]

/-- Witness for C1: the concrete text slash-reset takes the reset
branch of the handler. -/
theorem reset_command_bypasses_queue_witness :
    (handleTextMessage [] ⟨5, 7, some "Al", none, "/reset"⟩ 1000 "ab" false).resetFlagWritten
      = true ∧
    (handleTextMessage [] ⟨5, 7, some "Al", none, "/reset"⟩ 1000 "ab" false).replies
      = [resetReplyText] ∧
    (handleTextMessage [] ⟨5, 7, some "Al", none, "/reset"⟩ 1000 "ab" false).queueWrites
      = [] ∧
    (handleTextMessage [] ⟨5, 7, some "Al", none, "/reset"⟩ 1000 "ab" false).pending = [] :=
  reset_command_bypasses_queue [] ⟨5, 7, some "Al", none, "/reset"⟩ 1000 "ab" false rfl

/-- C8: if the Telegram bot token is missing (undefined), falsy (the
empty string), or the unconfigured placeholder, the process logs the
error and exits with status 1 (non-zero) before connecting; the model
of the startup path is a terminal outcome, never retried. -/
theorem startup_exits_without_token (tok : Option String)
    (h : tok = none ∨ tok = some "your_token_here") :
    startupCheck tok = .exited 1 startupErrorText ∧ (1 : Nat) ≠ 0 := by
  rcases h with h | h <;> subst h <;> exact ⟨rfl, one_ne_zero⟩

/-- Witness for C8: the missing token exits with status 1. -/
theorem startup_exits_without_token_witness :
    startupCheck none = .exited 1 startupErrorText ∧ (1 : Nat) ≠ 0 :=
  startup_exits_without_token none (Or.inl rfl)

/-- C10: every QueueMessage the handler writes, in every branch and
for every inbound message, has channel telegram, senderId the decimal
rendering of the originating chat id, and a non-empty sender (first
name, else username, else the literal Unknown). -/
theorem queue_write_field_invariants (pending : PendingMap) (c : Ctx)
    (now : Nat) (rand : String) (tf : Bool) :
    ((handleTextMessage pending c now rand tf).queueWrites).all
      (fun w => w.2.channel == "telegram" && w.2.senderId == toString c.chatId
        && !(w.2.sender == "")) = true := by
  by_cases hreset : isResetCommand c.text = true
  · simp [handleTextMessage, hreset]
  · cases tf with
    | true => simp [handleTextMessage, hreset]
    | false =>
      simp only [handleTextMessage, hreset, Bool.false_eq_true, if_false]
      simp [List.all, senderName_ne_empty c]

/-- C4: a well-formed response file in the outgoing directory whose
messageId (present or absent) matches no pending entry is handled by
logging the warning and deleting the file (keep is false), with no
platform message sent and the tracker untouched: the file is consumed
exactly once regardless of match outcome. -/
theorem orphan_response_discarded (pending : PendingMap) (f : OutFile) (r : ResponseData)
    (hname : isTelegramJson f.name = true) (hc : f.content = .parsed r)
    (hmiss : pendingFor pending r.messageId = none) (hu : f.unlinkFails = false) :
    processFile pending f = ⟨pending, false, [], [noPendingLog r.messageId]⟩ :=
  processFile_orphan pending f r hname hc hmiss hu

/-- Witness for C4: a response file with id D1 and an empty tracker is
deleted with a warning and nothing is sent. -/
theorem orphan_response_discarded_witness :
    processFile []
        ⟨"telegram_D1.json", .parsed ⟨"telegram", "bot", "hi", "orig", 5, some "D1"⟩, false⟩
      = ⟨[], false, [], [noPendingLog (some "D1")]⟩ :=
  orphan_response_discarded []
    ⟨"telegram_D1.json", .parsed ⟨"telegram", "bot", "hi", "orig", 5, some "D1"⟩, false⟩
    ⟨"telegram", "bot", "hi", "orig", 5, some "D1"⟩ rfl rfl rfl rfl

/-- C5: a well-formed response file whose messageId matches a pending
entry is handled by sending the response text to the entry chat as a
threaded reply to the original inbound Telegram message, removing the
entry from the tracker, and deleting the file. -/
theorem matched_response_delivered (pending : PendingMap) (f : OutFile) (r : ResponseData)
    (id : String) (p : PendingMessage)
    (hname : isTelegramJson f.name = true) (hc : f.content = .parsed r)
    (hid : r.messageId = some id) (hp : mapGet pending id = some p)
    (hu : f.unlinkFails = false) :
    processFile pending f = ⟨mapDelete pending id, false,
      [⟨p.chatId, r.message, p.messageId⟩],
      [⟨"INFO", "Sent response to " ++ r.sender⟩]⟩ :=
  processFile_matched pending f r id p hname hc hid hp hu

/-- Witness for C5: a response with id T1 matching a tracked entry is
sent to chat 9 quoting Telegram message 4, the entry is removed and
the file deleted. -/
theorem matched_response_delivered_witness :
    processFile [("T1", ⟨9, 4, 100⟩)]
        ⟨"telegram_T1.json",
          .parsed ⟨"telegram", "bot", "hello back", "orig", 5, some "T1"⟩, false⟩
      = ⟨mapDelete [("T1", ⟨9, 4, 100⟩)] "T1", false, [⟨9, "hello back", 4⟩],
          [⟨"INFO", "Sent response to bot"⟩]⟩ :=
  matched_response_delivered [("T1", ⟨9, 4, 100⟩)]
    ⟨"telegram_T1.json",
      .parsed ⟨"telegram", "bot", "hello back", "orig", 5, some "T1"⟩, false⟩
    ⟨"telegram", "bot", "hello back", "orig", 5, some "T1"⟩ "T1" ⟨9, 4, 100⟩
    rfl rfl rfl rfl rfl

/-- Counterexample to C2 as stated: a PendingEntry enqueued at time 0
is more than 10 minutes in the past when a response for it arrives at
time 650000, yet the poll cycle sends a platform message for it. The
poll cycle never consults the clock: eviction happens only inside the
inbound-message handler, so with no intervening inbound message the
stale entry still routes the reply. -/
theorem stale_entry_still_routes_reply_cex :
    (0 : Nat) + 600000 < 650000 ∧
    (checkOutgoingQueue [("X", ⟨7, 42, 0⟩)]
        [⟨"telegram_X.json",
          .parsed ⟨"telegram", "bot", "hi", "orig", 650000, some "X"⟩, false⟩]
        false).sent = [⟨7, "hi", 42⟩] :=
  ⟨by norm_num, rfl⟩

/-- C2 amended: entries older than 10 minutes are evicted from the
tracker whenever a (non-reset) inbound message is handled — after such
a handler run at time now, no entry more than 10 minutes old remains —
and a response file whose messageId has no entry in the tracker sends
nothing. Between inbound messages, however, the poll cycle performs no
age check, so a stale entry still present can route a reply (see the
counterexample). -/
theorem stale_entry_eviction_on_inbound (pending pend2 : PendingMap) (c : Ctx)
    (now : Nat) (rand : String) (f : OutFile) (r : ResponseData)
    (hreset : isResetCommand c.text = false)
    (hc : f.content = .parsed r)
    (hmiss : pendingFor pend2 r.messageId = none) :
    ((handleTextMessage pending c now rand false).pending).all
      (fun e => !(decide (e.2.timestamp < now - 600000))) = true ∧
    (processFile pend2 f).sent = [] := by
  constructor
  · simp only [handleTextMessage, hreset, Bool.false_eq_true, if_false]
    exact evictOld_all now _
  · exact processFile_sent_of_unmatched pend2 f r hc hmiss

/-- Witness for C2 amended: handling the inbound text hello at time
700000 evicts the stale entry enqueued at time 0, and a response whose
id is absent from the tracker produces no send. -/
theorem stale_entry_eviction_on_inbound_witness :
    ((handleTextMessage [("old", ⟨1, 2, 0⟩)] ⟨5, 7, some "Al", none, "hello"⟩
        700000 "x" false).pending).all
      (fun e => !(decide (e.2.timestamp < 700000 - 600000))) = true ∧
    (processFile []
        ⟨"telegram_old.json",
          .parsed ⟨"telegram", "bot", "late", "orig", 700001, some "old"⟩, false⟩).sent
      = [] :=
  stale_entry_eviction_on_inbound [("old", ⟨1, 2, 0⟩)] []
    ⟨5, 7, some "Al", none, "hello"⟩ 700000 "x"
    ⟨"telegram_old.json",
      .parsed ⟨"telegram", "bot", "late", "orig", 700001, some "old"⟩, false⟩
    ⟨"telegram", "bot", "late", "orig", 700001, some "old"⟩ rfl rfl rfl

/-- Counterexample to C3 as stated: a file whose content fails to
parse is logged but NOT deleted — it is still in the outgoing
directory after the cycle, and a later cycle over the remaining files
processes it again, logging the same failure. The inner catch block of
the poll loop only logs; the unlink calls are unreachable once
JSON.parse has thrown. -/
theorem malformed_file_not_deleted_cex :
    (checkOutgoingQueue [] [⟨"telegram_bad.json", .invalid, false⟩] false).remaining
      = [⟨"telegram_bad.json", .invalid, false⟩] ∧
    (checkOutgoingQueue [] [⟨"telegram_bad.json", .invalid, false⟩] false).logs
      = [fileErrorLog "telegram_bad.json"] ∧
    (checkOutgoingQueue []
        (checkOutgoingQueue [] [⟨"telegram_bad.json", .invalid, false⟩] false).remaining
        false).logs = [fileErrorLog "telegram_bad.json"] :=
  ⟨rfl, rfl, rfl⟩

/-- C3 amended: a malformed outgoing file is always logged, but its
fate differs by failure mode. A file whose content is unparseable is
left in place (keep is true) and so IS re-examined on every later poll
cycle; only a file that parses but has no usable messageId (such as a
missing field) is deleted via the no-pending branch and not
reprocessed. -/
theorem malformed_file_handling (pending pend2 : PendingMap) (f g : OutFile)
    (r : ResponseData)
    (hfn : isTelegramJson f.name = true) (hf : f.content = .invalid)
    (hgn : isTelegramJson g.name = true) (hg : g.content = .parsed r)
    (hr : r.messageId = none) (hgu : g.unlinkFails = false) :
    processFile pending f = ⟨pending, true, [], [fileErrorLog f.name]⟩ ∧
    processFile pend2 g = ⟨pend2, false, [], [noPendingLog none]⟩ := by
  constructor
  · exact processFile_invalid pending f hfn hf
  · have := processFile_orphan pend2 g r hgn hg (by simp [pendingFor, hr]) hgu
    rwa [hr] at this

/-- Witness for C3 amended: an unparseable file is kept and logged; a
parsed file with a missing messageId field is warned about and
deleted. -/
theorem malformed_file_handling_witness :
    processFile [] ⟨"telegram_bad.json", .invalid, false⟩
      = ⟨[], true, [], [fileErrorLog "telegram_bad.json"]⟩ ∧
    processFile [("K", ⟨3, 4, 5⟩)]
        ⟨"telegram_nofield.json", .parsed ⟨"telegram", "bot", "hi", "orig", 5, none⟩, false⟩
      = ⟨[("K", ⟨3, 4, 5⟩)], false, [], [noPendingLog none]⟩ :=
  malformed_file_handling [] [("K", ⟨3, 4, 5⟩)]
    ⟨"telegram_bad.json", .invalid, false⟩
    ⟨"telegram_nofield.json", .parsed ⟨"telegram", "bot", "hi", "orig", 5, none⟩, false⟩
    ⟨"telegram", "bot", "hi", "orig", 5, none⟩ rfl rfl rfl rfl rfl rfl

/-- Counterexample to C6 as stated: the generated messageId is not
unique per message. Two distinct inbound messages handled in the same
millisecond with the same Math.random suffix (which the code does
nothing to rule out — the suffix can even be empty when the random
decimal is short) receive the identical id and the identical queue
filename, so the second write overwrites the first. -/
theorem message_id_collision_cex :
    (⟨1, 1, some "A", none, "hello"⟩ : Ctx) ≠ (⟨2, 2, some "B", none, "world"⟩ : Ctx) ∧
    (handleTextMessage [] ⟨1, 1, some "A", none, "hello"⟩ 1000 "ab" false).queueWrites.map
        Prod.fst
      = (handleTextMessage [] ⟨2, 2, some "B", none, "world"⟩ 1000 "ab" false).queueWrites.map
        Prod.fst ∧
    (handleTextMessage [] ⟨1, 1, some "A", none, "hello"⟩ 1000 "ab" false).queueWrites.map
        (fun w => w.2.messageId) = ["1000_ab"] ∧
    (handleTextMessage [] ⟨2, 2, some "B", none, "world"⟩ 1000 "ab" false).queueWrites.map
        (fun w => w.2.messageId) = ["1000_ab"] :=
  ⟨by simp, rfl, rfl, rfl⟩

/-- C6 amended: for every non-reset inbound message the handler
generates the id timestamp-underscore-randomSuffix, writes exactly one
QueueMessage to the file telegram underscore id dot json carrying that
id, and records a PendingEntry under the same id; ids of two messages
coincide exactly when both the millisecond timestamp and the random
suffix coincide — the code itself does not guarantee the pairs differ
across messages or adapter instances. -/
theorem message_id_and_queue_write (pending : PendingMap) (c : Ctx)
    (now now2 : Nat) (rand rand2 : String)
    (hreset : isResetCommand c.text = false) :
    (handleTextMessage pending c now rand false).queueWrites
      = [("telegram_" ++ mkMessageId now rand ++ ".json",
          ⟨"telegram", senderName c, toString c.chatId, c.text, now, mkMessageId now rand⟩)] ∧
    mapGet (handleTextMessage pending c now rand false).pending (mkMessageId now rand)
      = some ⟨c.chatId, c.telegramMessageId, now⟩ ∧
    (mkMessageId now rand = mkMessageId now2 rand2 ↔ now = now2 ∧ rand = rand2) := by
  refine ⟨?_, ?_, ?_⟩
  · simp [handleTextMessage, hreset]
  · simp only [handleTextMessage, hreset, Bool.false_eq_true, if_false]
    exact mapGet_evict_set pending (mkMessageId now rand)
      ⟨c.chatId, c.telegramMessageId, now⟩ now (by simp)
  · constructor
    · exact mkMessageId_inj now now2 rand rand2
    · rintro ⟨rfl, rfl⟩
      rfl

/-- Witness for C6 amended: a concrete non-reset message at time 1000
with suffix ab yields the queue file and the pending entry under the
id 1000 underscore ab. -/
theorem message_id_and_queue_write_witness :
    (handleTextMessage [] ⟨5, 7, some "Al", none, "hello"⟩ 1000 "ab" false).queueWrites
      = [("telegram_" ++ mkMessageId 1000 "ab" ++ ".json",
          ⟨"telegram", senderName ⟨5, 7, some "Al", none, "hello"⟩,
            toString (5 : Int), "hello", 1000, mkMessageId 1000 "ab"⟩)] ∧
    mapGet (handleTextMessage [] ⟨5, 7, some "Al", none, "hello"⟩ 1000 "ab" false).pending
        (mkMessageId 1000 "ab") = some ⟨5, 7, 1000⟩ ∧
    (mkMessageId 1000 "ab" = mkMessageId 1001 "cd" ↔ (1000 : Nat) = 1001 ∧ "ab" = "cd") :=
  message_id_and_queue_write [] ⟨5, 7, some "Al", none, "hello"⟩ 1000 1001 "ab" "cd" rfl

/-- Counterexample to C7 as stated: a failed typing-indicator send in
the refresh loop is NOT logged. The attempt for chat 5 fails, yet the
tick produces an empty log list: the promise carries a catch handler
with an empty body, so the failure is swallowed silently, contradicting
that every transient platform error is logged. -/
theorem typing_failure_unlogged_cex :
    (fun _ => SendOutcome.failed) (5 : Int) = SendOutcome.failed ∧
    (typingRefreshTick [("a", ⟨5, 1, 0⟩)] (fun _ => SendOutcome.failed)).1 = [5] ∧
    (typingRefreshTick [("a", ⟨5, 1, 0⟩)] (fun _ => SendOutcome.failed)).2 = [] :=
  ⟨rfl, rfl, rfl⟩

/-- C7 amended: transient platform errors never abort the adapter
loops, but only the errors caught by the message-handler boundary are
logged. Whatever the send outcomes, the typing-refresh tick attempts
the indicator for every pending entry (no failure cuts the iteration
short) and writes no log lines at all; an error thrown inside the
message handler (modelled by the typing oracle) is caught, logged, and
leaves the handler with no queue write rather than crashing. -/
theorem typing_failures_swallowed_unlogged (pending : PendingMap)
    (outcome : Int → SendOutcome) (pend0 : PendingMap) (c : Ctx)
    (now : Nat) (rand : String)
    (hreset : isResetCommand c.text = false) :
    (typingRefreshTick pending outcome).1 = pending.map (fun e => e.2.chatId) ∧
    (typingRefreshTick pending outcome).2 = [] ∧
    (handleTextMessage pend0 c now rand true).logs
      = [⟨"INFO", "Message from " ++ senderName c⟩,
          ⟨"ERROR", "Message handling error"⟩] ∧
    (handleTextMessage pend0 c now rand true).queueWrites = [] := by
  have htick : ∀ (l : PendingMap),
      (typingRefreshTick l outcome).1 = l.map (fun e => e.2.chatId) ∧
      (typingRefreshTick l outcome).2 = [] := by
    intro l
    induction l with
    | nil => exact ⟨rfl, rfl⟩
    | cons e rest ih =>
      cases h : outcome e.2.chatId <;>
        simp [typingRefreshTick, h, ih.1, ih.2]
  refine ⟨(htick pending).1, (htick pending).2, ?_, ?_⟩ <;>
    simp [handleTextMessage, hreset]

/-- Witness for C7 amended: one pending entry, an always-failing
outcome, and a failing handler on the text hello. -/
theorem typing_failures_swallowed_unlogged_witness :
    (typingRefreshTick [("a", ⟨5, 1, 0⟩)] (fun _ => SendOutcome.failed)).1
      = [("a", (⟨5, 1, 0⟩ : PendingMessage))].map (fun e => e.2.chatId) ∧
    (typingRefreshTick [("a", ⟨5, 1, 0⟩)] (fun _ => SendOutcome.failed)).2 = [] ∧
    (handleTextMessage [] ⟨5, 7, some "Al", none, "hello"⟩ 1000 "ab" true).logs
      = [⟨"INFO", "Message from " ++ senderName ⟨5, 7, some "Al", none, "hello"⟩⟩,
          ⟨"ERROR", "Message handling error"⟩] ∧
    (handleTextMessage [] ⟨5, 7, some "Al", none, "hello"⟩ 1000 "ab" true).queueWrites
      = [] :=
  typing_failures_swallowed_unlogged [("a", ⟨5, 1, 0⟩)] (fun _ => SendOutcome.failed)
    [] ⟨5, 7, some "Al", none, "hello"⟩ 1000 "ab" rfl

/-- C9: failures are contained per file and per cycle. A failure of
the directory listing is caught by the outer boundary: the cycle only
logs and touches nothing. A file whose parse fails at the head of the
loop leaves the processing of every later file unchanged (same tracker
evolution, same sends), adding only its error log and staying in the
directory; likewise a file whose deletion fails (after the warn path)
does not prevent the remaining files from being handled. The reply
send itself is fire-and-forget in the source, so its failure cannot
interrupt the loop either. -/
theorem poll_cycle_error_isolation (pending pend2 : PendingMap) (dir : List OutFile)
    (f g : OutFile) (ys zs : List OutFile) (r : ResponseData)
    (hfn : isTelegramJson f.name = true) (hf : f.content = .invalid)
    (hgn : isTelegramJson g.name = true) (hg : g.content = .parsed r)
    (hgm : pendingFor pend2 r.messageId = none) (hgu : g.unlinkFails = true) :
    checkOutgoingQueue pending dir true = ⟨pending, dir, [], [outgoingErrorLog]⟩ ∧
    processFiles pending (f :: ys)
      = ⟨(processFiles pending ys).pending, f :: (processFiles pending ys).remaining,
          (processFiles pending ys).sent,
          fileErrorLog f.name :: (processFiles pending ys).logs⟩ ∧
    processFiles pend2 (g :: zs)
      = ⟨(processFiles pend2 zs).pending, g :: (processFiles pend2 zs).remaining,
          (processFiles pend2 zs).sent,
          noPendingLog r.messageId :: fileErrorLog g.name :: (processFiles pend2 zs).logs⟩ := by
  refine ⟨by simp [checkOutgoingQueue], ?_, ?_⟩
  · rw [processFiles_cons, processFile_invalid pending f hfn hf]
    simp
  · rw [processFiles_cons, processFile_orphan_unlinkFail pend2 g r hgn hg hgm hgu]
    simp

/-- Witness for C9: a failing listing over an empty directory, an
unparseable file, and an orphan file whose unlink fails, each in a
one-file cycle. -/
theorem poll_cycle_error_isolation_witness :
    checkOutgoingQueue [] [] true = ⟨[], [], [], [outgoingErrorLog]⟩ ∧
    processFiles [] [⟨"telegram_a.json", .invalid, false⟩]
      = ⟨(processFiles [] []).pending,
          ⟨"telegram_a.json", .invalid, false⟩ :: (processFiles [] []).remaining,
          (processFiles [] []).sent,
          fileErrorLog "telegram_a.json" :: (processFiles [] []).logs⟩ ∧
    processFiles []
        [⟨"telegram_b.json", .parsed ⟨"telegram", "bot", "hi", "o", 5, some "Z"⟩, true⟩]
      = ⟨(processFiles [] []).pending,
          ⟨"telegram_b.json", .parsed ⟨"telegram", "bot", "hi", "o", 5, some "Z"⟩, true⟩ ::
            (processFiles [] []).remaining,
          (processFiles [] []).sent,
          noPendingLog (some "Z") :: fileErrorLog "telegram_b.json" ::
            (processFiles [] []).logs⟩ :=
  poll_cycle_error_isolation [] [] []
    ⟨"telegram_a.json", .invalid, false⟩
    ⟨"telegram_b.json", .parsed ⟨"telegram", "bot", "hi", "o", 5, some "Z"⟩, true⟩
    [] [] ⟨"telegram", "bot", "hi", "o", 5, some "Z"⟩ rfl rfl rfl rfl rfl rfl

end Kitebot
